import Mathlib

/-!
Shallow embedding of the inventory reconciliation engine in `src/app.py`
(helpers `money_to_float`, `num_or_zero`, `get_product_status`,
`clean_and_validate_data`, `calculate_inventory_metrics`, and the
suggested-reorder-quantity computation of `show_reorder_alerts`).

Python floats are modelled as exact rationals (`ℚ`); `re`'s `\d` and the
string methods `strip`/`upper` are modelled on ASCII.  Python's
`float(str)` parser is modelled without exponent notation, underscores,
`inf`/`nan` — forms that cannot survive the call sites here (either the
character classes are stripped first, or the claims never exercise them).
-/

namespace Invt

/-- A scalar value of a raw record: Python `None`, a string, or a number
(int and float collapsed into `ℚ`). -/
inductive Value where
  | none : Value
  | str : String → Value
  | num : ℚ → Value
deriving DecidableEq, Repr

/-- A raw record: a string-keyed mapping of scalar values
(Python dict; keys are assumed distinct, first binding wins). -/
def RawRecord := List (String × Value)

/-- Python `record.get(k, d)`: the value bound to `k`, else default `d`. -/
def RawRecord.getD (r : RawRecord) (k : String) (d : Value) : Value :=
  match r.find? (fun p => p.1 = k) with
  | Option.some p => p.2
  | Option.none => d

/-- Python `record.get(k)` (default `None`). -/
def RawRecord.get (r : RawRecord) (k : String) : Value :=
  r.getD k Value.none

/-- Python `k in record`. -/
def RawRecord.hasKey (r : RawRecord) (k : String) : Bool :=
  (r.find? (fun p => p.1 = k)).isSome

/-- Python truthiness of a scalar: `None`, `""`, and `0` are falsy. -/
def truthy : Value → Bool
  | Value.none => false
  | Value.str s => s ≠ ""
  | Value.num q => q ≠ 0

/-- Python `str(x)` on a scalar.  The rendering of numbers is abstracted
(`toString` on `ℚ` rather than Python float repr); no claim depends on it. -/
def pyStr : Value → String
  | Value.none => "None"
  | Value.str s => s
  | Value.num q => toString q

/-- ASCII whitespace, as stripped by Python `str.strip()`. -/
def isSpaceChar (c : Char) : Bool :=
  c = ' ' || c = '\t' || c = '\n' || c = '\r' || c = '\x0b' || c = '\x0c'

/-- Python `s.strip()`: surrounding whitespace removed. -/
def pyStrip (s : String) : String :=
  String.mk (((s.toList.dropWhile isSpaceChar).reverse.dropWhile isSpaceChar).reverse)

/-- Python `s.upper()` on ASCII letters. -/
def pyUpper (s : String) : String :=
  String.mk (s.toList.map (fun c =>
    if 'a' ≤ c && c ≤ 'z' then Char.ofNat (c.toNat - 32) else c))

/-- Numeric value of a list of ASCII digit characters (most significant
first), as in positional decimal notation. -/
def digitsToNat (cs : List Char) : Nat :=
  cs.foldl (fun n c => 10 * n + (c.toNat - '0'.toNat)) 0

/-- Well-formed unsigned Python float literal (no exponent): only digits
and dots, at most one dot, at least one digit. -/
def floatCoreOK (cs : List Char) : Bool :=
  cs.all (fun c => c.isDigit || c = '.') && cs.count '.' ≤ 1 && cs.any Char.isDigit

/-- Value of a well-formed unsigned float literal: integer part plus
fractional part scaled by a power of ten. -/
def floatCoreVal (cs : List Char) : ℚ :=
  let intPart := cs.takeWhile (fun c => c ≠ '.')
  let fracPart := (cs.dropWhile (fun c => c ≠ '.')).drop 1
  (digitsToNat intPart : ℚ) + (digitsToNat fracPart : ℚ) / (10 : ℚ) ^ fracPart.length

/-- Unsigned part of Python `float(str)` parsing: `some` value on a
well-formed literal, `none` (a `ValueError`) otherwise. -/
def floatCore (cs : List Char) : Option ℚ :=
  if floatCoreOK cs then Option.some (floatCoreVal cs) else Option.none

/-- Python `float(s)` on a string: surrounding whitespace trimmed, optional
sign, then an unsigned literal; failure is `none`. -/
def pyFloat (s : String) : Option ℚ :=
  match (pyStrip s).toList with
  | '+' :: rest => floatCore rest
  | '-' :: rest => (floatCore rest).map (fun q => -q)
  | cs => floatCore cs

/-- Characters kept by `re.sub(r"[^\d.\-]", "", s)`: digits, dot, hyphen. -/
def moneyChar (c : Char) : Bool :=
  c.isDigit || c = '.' || c = '-'

/-- `money_to_float` (src/app.py:518): `None`/`""` → 0; numbers pass
through; strings are stripped to `[0-9.\-]` and parsed, any failure → 0. -/
def money_to_float : Value → ℚ
  | Value.none => 0
  | Value.num q => q
  | Value.str s =>
      if s = "" then 0
      else
        let s' := String.mk (s.toList.filter moneyChar)
        if s' = "" then 0 else (pyFloat s').getD 0

/-- `num_or_zero` (src/app.py:532): Python `float(x)` with any exception
mapped to 0. -/
def num_or_zero : Value → ℚ
  | Value.none => 0
  | Value.num q => q
  | Value.str s => (pyFloat s).getD 0

example : money_to_float (Value.str "₹1,650") = 1650 := by with_unfolding_all rfl
example : money_to_float (Value.str "-5") = -5 := by with_unfolding_all rfl
example : money_to_float (Value.str "N/A") = 0 := by with_unfolding_all rfl
example : money_to_float (Value.str "1.2.3") = 0 := by with_unfolding_all rfl
example : money_to_float (Value.str "12.5") = 25/2 := by with_unfolding_all rfl
example : num_or_zero (Value.str "-5") = -5 := by with_unfolding_all rfl
example : num_or_zero (Value.str "abc") = 0 := by with_unfolding_all rfl
example : pyFloat ".5" = Option.some (1/2) := by with_unfolding_all rfl
example : pyFloat "." = Option.none := by with_unfolding_all rfl
example : pyFloat "--1" = Option.none := by with_unfolding_all rfl

/-- `get_product_status` (src/app.py:550): status tier plus display label and
description, with out-of-stock and critically-low checked before the
warning checks. -/
def get_product_status (current_stock reorder_level : ℚ)
    (reorder_required : String) : String × String × String :=
  if current_stock = 0 then
    ("critical", "🔴 Out of Stock", "Immediate action required - Zero inventory")
  else if current_stock ≤ reorder_level * (1/2) then
    ("critical", "🔴 Critical Low", "Order immediately - Below 50% of reorder level")
  else if current_stock ≤ reorder_level then
    ("warning", "🟡 Low Stock", "Order soon - Below reorder level")
  else if pyUpper (pyStrip reorder_required) = "YES" then
    ("warning", "🟠 Manual Order", "Manual reorder flagged")
  else
    ("success", "🟢 In Stock", "Stock levels satisfactory")

/-- A cleaned catalog record (src/app.py:588, the dict literal built for
`cleaned_raw_data`; `Total Cost`-style passthrough fields it lacks). -/
structure CleanedMaterial where
  rm_id : String
  product_name : String
  unit : String
  current_stock : ℚ
  cost_per_unit : ℚ
  avg_cost_per_unit : ℚ
  reorder_level : ℚ
  reorder_required : String
deriving DecidableEq, Repr

/-- A cleaned inbound record (src/app.py:612). -/
structure CleanedIn where
  date : Value
  product_name : String
  quantity_in : ℚ
  cost_per_unit : ℚ
  total_cost : ℚ
  rm_id : String
  product_id : String
deriving DecidableEq, Repr

/-- A cleaned outbound record (src/app.py:634). -/
structure CleanedOut where
  date : Value
  product_name : String
  quantity_out : ℚ
  rm_id : String
  product_id : String
  remarks : String
deriving DecidableEq, Repr

/-- The three raw input collections (`data["raw_data"]`, `data["in_data"]`,
`data["out_data"]`); the passthrough collections (inventory, supplier,
staff, partner) carry no logic and are not modelled. -/
structure InputData where
  raw_data : List RawRecord
  in_data : List RawRecord
  out_data : List RawRecord

/-- The cleaned counterparts of the three collections. -/
structure CleanedData where
  raw_data : List CleanedMaterial
  in_data : List CleanedIn
  out_data : List CleanedOut

/-- Catalog cleaning, one record (src/app.py:570-598): requires truthy
`RM ID` and `Product Name`, normalizes the numeric fields, clamps negative
values to 0, and upper-cases the manual-reorder flag. -/
def clean_material (record : RawRecord) : Option CleanedMaterial :=
  if ¬ truthy (record.get "RM ID") ∨ ¬ truthy (record.get "Product Name") then
    Option.none
  else
    let current_stock := num_or_zero (record.getD "Current Stock" (Value.num 0))
    let unit_cost := money_to_float
      (record.getD "Cost per Unit" (record.getD "Avg. Cost per Unit" (Value.num 0)))
    let reorder_level := money_to_float (record.getD "Reorder Level" (Value.num 0))
    let current_stock := if current_stock < 0 then 0 else current_stock
    let unit_cost := if unit_cost < 0 then 0 else unit_cost
    let reorder_level := if reorder_level < 0 then 0 else reorder_level
    Option.some
      { rm_id := pyStrip (pyStr (record.getD "RM ID" (Value.str "")))
        product_name := pyStrip (pyStr (record.getD "Product Name" (Value.str "")))
        unit := pyStrip (pyStr (record.getD "Unit" (Value.str "")))
        current_stock := current_stock
        cost_per_unit := unit_cost
        avg_cost_per_unit := unit_cost
        reorder_level := reorder_level
        reorder_required :=
          pyUpper (pyStrip (pyStr (record.getD "Re-Order Required" (Value.str "")))) }

/-- Inbound cleaning, one record (src/app.py:602-621): requires truthy
`Product Name` and `Quantity In`, then strictly positive normalized
quantity and cost. -/
def clean_in (record : RawRecord) : Option CleanedIn :=
  if ¬ truthy (record.get "Product Name") ∨ ¬ truthy (record.get "Quantity In") then
    Option.none
  else
    let quantity_in := num_or_zero (record.getD "Quantity In" (Value.num 0))
    let cost_per_unit := money_to_float (record.getD "Cost Per Unit" (Value.num 0))
    if quantity_in ≤ 0 ∨ cost_per_unit ≤ 0 then
      Option.none
    else
      Option.some
        { date := record.getD "Date" (Value.str "")
          product_name := pyStrip (pyStr (record.getD "Product Name" (Value.str "")))
          quantity_in := quantity_in
          cost_per_unit := cost_per_unit
          total_cost := quantity_in * cost_per_unit
          rm_id := pyStrip (pyStr (record.getD "RM ID" (Value.str "")))
          product_id := pyStrip (pyStr (record.getD "Product ID" (Value.str ""))) }

/-- Outbound cleaning, one record (src/app.py:625-642): requires truthy
`Product Name` and `Quantity Out`, then strictly positive normalized
quantity; no cost requirement. -/
def clean_out (record : RawRecord) : Option CleanedOut :=
  if ¬ truthy (record.get "Product Name") ∨ ¬ truthy (record.get "Quantity Out") then
    Option.none
  else
    let quantity_out := num_or_zero (record.getD "Quantity Out" (Value.num 0))
    if quantity_out ≤ 0 then
      Option.none
    else
      Option.some
        { date := record.getD "Date" (Value.str "")
          product_name := pyStrip (pyStr (record.getD "Product Name" (Value.str "")))
          quantity_out := quantity_out
          rm_id := pyStrip (pyStr (record.getD "RM ID" (Value.str "")))
          product_id := pyStrip (pyStr (record.getD "Product ID" (Value.str "")))
          remarks := pyStrip (pyStr (record.getD "Remarks" (Value.str ""))) }

/-- `clean_and_validate_data` (src/app.py:564): per-record cleaning of the
three collections, dropping records that fail validation. -/
def clean_and_validate_data (data : InputData) : CleanedData :=
  { raw_data := data.raw_data.filterMap clean_material
    in_data := data.in_data.filterMap clean_in
    out_data := data.out_data.filterMap clean_out }

/-- The per-catalog-record quantities computed by the loop body of
`calculate_inventory_metrics` (src/app.py:713-737). -/
structure LineCalc where
  rm_id : String
  product_name : String
  current_stock : ℚ
  unit_cost : ℚ
  reorder_level : ℚ
  item_value : ℚ
  status : String
  status_text : String
  status_desc : String
  reorder_value : ℚ
deriving DecidableEq, Repr

/-- An element of `metrics["alert_items"]` (src/app.py:744-772). -/
structure AlertItem where
  product : String
  rm_id : String
  current_stock : ℚ
  reorder_level : ℚ
  unit_cost : ℚ
  status : String
  status_text : String
  status_desc : String
  priority : String
  est_reorder_value : ℚ
  stock_value : ℚ
deriving DecidableEq, Repr

/-- One pass of the catalog loop of `calculate_inventory_metrics`
(src/app.py:713-737): re-normalize the cleaned fields (the identity on
cleaned records), classify, and value the line. -/
def line_of (r : CleanedMaterial) : LineCalc :=
  let current_stock := num_or_zero (Value.num r.current_stock)
  let unit_cost := money_to_float (Value.num r.cost_per_unit)
  let reorder_level := money_to_float (Value.num r.reorder_level)
  let s := get_product_status current_stock reorder_level r.reorder_required
  { rm_id := r.rm_id
    product_name := r.product_name
    current_stock := current_stock
    unit_cost := unit_cost
    reorder_level := reorder_level
    item_value := current_stock * unit_cost
    status := s.1
    status_text := s.2.1
    status_desc := s.2.2
    reorder_value := reorder_level * unit_cost }

/-- The alert appended for a line when its status is critical or warning
(src/app.py:739-772), with its priority label. -/
def alert_of (l : LineCalc) : Option AlertItem :=
  if l.status = "critical" then
    Option.some
      { product := l.product_name, rm_id := l.rm_id
        current_stock := l.current_stock, reorder_level := l.reorder_level
        unit_cost := l.unit_cost, status := l.status
        status_text := l.status_text, status_desc := l.status_desc
        priority := if l.current_stock = 0 then "High" else "Medium"
        est_reorder_value := l.reorder_value, stock_value := l.item_value }
  else if l.status = "warning" then
    Option.some
      { product := l.product_name, rm_id := l.rm_id
        current_stock := l.current_stock, reorder_level := l.reorder_level
        unit_cost := l.unit_cost, status := l.status
        status_text := l.status_text, status_desc := l.status_desc
        priority := "Low"
        est_reorder_value := l.reorder_value, stock_value := l.item_value }
  else
    Option.none

/-- The metrics dict built by `calculate_inventory_metrics`
(src/app.py:663-678); `fifo_items` is never written and stays empty. -/
structure Metrics where
  total_products : ℕ
  total_value : ℚ
  critical_items : ℕ
  low_stock_items : ℕ
  out_of_stock_items : ℕ
  high_value_items : ℕ
  total_in : ℚ
  total_out : ℚ
  alert_items : List AlertItem
  expiring_soon : ℕ
  avg_cost_per_unit : ℚ
  total_reorder_value : ℚ
  stock_turnover_rate : ℚ
deriving DecidableEq, Repr

/-- `calculate_inventory_metrics` (src/app.py:657-784): clean the input,
sum the cleaned transaction quantities into the global totals, run the
catalog loop accumulating values, counts and alerts, then derive the
average cost and the turnover rate. -/
def calculate_inventory_metrics (data : InputData) : Metrics :=
  let cleaned := clean_and_validate_data data
  let lines := cleaned.raw_data.map line_of
  let total_products := cleaned.raw_data.length
  let total_in := (cleaned.in_data.map (fun r => num_or_zero (Value.num r.quantity_in))).sum
  let total_out := (cleaned.out_data.map (fun r => num_or_zero (Value.num r.quantity_out))).sum
  let total_value := (lines.map (fun l => l.item_value)).sum
  let total_cost := (lines.map (fun l => l.unit_cost)).sum
  let total_units : ℚ := lines.length
  let avg_stock := total_value / (max total_products 1 : ℕ)
  { total_products := total_products
    total_value := total_value
    critical_items :=
      (lines.filter (fun l => l.status = "critical" ∧ l.current_stock ≠ 0)).length
    low_stock_items := (lines.filter (fun l => l.status = "warning")).length
    out_of_stock_items :=
      (lines.filter (fun l => l.status = "critical" ∧ l.current_stock = 0)).length
    high_value_items := (lines.filter (fun l => l.item_value > 10000)).length
    total_in := total_in
    total_out := total_out
    alert_items := lines.filterMap alert_of
    expiring_soon := 0
    avg_cost_per_unit := if total_units > 0 then total_cost / total_units else 0
    total_reorder_value :=
      ((lines.filter (fun l => l.status = "critical" ∨ l.status = "warning")).map
        (fun l => l.reorder_value)).sum
    stock_turnover_rate := if avg_stock > 0 then total_out / avg_stock else 0 }

/-- The suggested reorder quantity shown per alert by `show_reorder_alerts`
(src/app.py:1285 and 1317): a plain difference, no clamping. -/
def suggested_qty (a : AlertItem) : ℚ :=
  a.reorder_level - a.current_stock

/-- Follows the spec's words (§4.3, no counterpart in the code): the join
key of a catalog record — identifier field, else display name. -/
def spec_catalog_key (m : CleanedMaterial) : String :=
  if m.rm_id ≠ "" then m.rm_id else m.product_name

/-- Follows the spec's words (§4.3): the join key of an inbound record —
identifier, else alternate identifier, else display name. -/
def spec_in_key (t : CleanedIn) : String :=
  if t.rm_id ≠ "" then t.rm_id
  else if t.product_id ≠ "" then t.product_id
  else t.product_name

/-- Follows the spec's words (§4.3): the join key of an outbound record. -/
def spec_out_key (t : CleanedOut) : String :=
  if t.rm_id ≠ "" then t.rm_id
  else if t.product_id ≠ "" then t.product_id
  else t.product_name

/-- Follows the spec's words (§4.4): sum of cleaned inbound quantities
whose resolved key matches the given key. -/
def spec_totalIn (c : CleanedData) (key : String) : ℚ :=
  ((c.in_data.filter (fun t => spec_in_key t = key)).map (fun t => t.quantity_in)).sum

/-- Follows the spec's words (§4.4): sum of cleaned outbound quantities
whose resolved key matches the given key. -/
def spec_totalOut (c : CleanedData) (key : String) : ℚ :=
  ((c.out_data.filter (fun t => spec_out_key t = key)).map (fun t => t.quantity_out)).sum

/-- Follows the spec's words (§4.2): unit cost resolved as the primary cost
field if present and non-zero after normalization, else the secondary cost
field, else 0. -/
def spec_unit_cost (r : RawRecord) : ℚ :=
  if r.hasKey "Cost per Unit" ∧ money_to_float (r.get "Cost per Unit") ≠ 0 then
    money_to_float (r.get "Cost per Unit")
  else if r.hasKey "Avg. Cost per Unit" then
    money_to_float (r.get "Avg. Cost per Unit")
  else 0

/-- Follows the spec's words (§3, `InventoryLine.key` unique): the number
of distinct catalog keys. -/
def spec_distinct_keys (c : CleanedData) : ℕ :=
  ((c.raw_data.map spec_catalog_key).dedup).length

@[simp] lemma num_or_zero_num (q : ℚ) : num_or_zero (Value.num q) = q := rfl

@[simp] lemma money_to_float_num (q : ℚ) : money_to_float (Value.num q) = q := rfl

@[simp] lemma line_of_rm_id (r : CleanedMaterial) : (line_of r).rm_id = r.rm_id := rfl

@[simp] lemma line_of_current_stock (r : CleanedMaterial) :
    (line_of r).current_stock = r.current_stock := rfl

@[simp] lemma line_of_unit_cost (r : CleanedMaterial) :
    (line_of r).unit_cost = r.cost_per_unit := rfl

@[simp] lemma line_of_reorder_level (r : CleanedMaterial) :
    (line_of r).reorder_level = r.reorder_level := rfl

@[simp] lemma line_of_item_value (r : CleanedMaterial) :
    (line_of r).item_value = r.current_stock * r.cost_per_unit := rfl

@[simp] lemma line_of_reorder_value (r : CleanedMaterial) :
    (line_of r).reorder_value = r.reorder_level * r.cost_per_unit := rfl

@[simp] lemma line_of_status (r : CleanedMaterial) :
    (line_of r).status =
      (get_product_status r.current_stock r.reorder_level r.reorder_required).1 := rfl

lemma metrics_alert_items (data : InputData) :
    (calculate_inventory_metrics data).alert_items =
      ((clean_and_validate_data data).raw_data.map line_of).filterMap alert_of := rfl

lemma metrics_total_products (data : InputData) :
    (calculate_inventory_metrics data).total_products =
      ((clean_and_validate_data data).raw_data).length := rfl

lemma metrics_total_in (data : InputData) :
    (calculate_inventory_metrics data).total_in =
      (((clean_and_validate_data data).in_data).map (fun r => r.quantity_in)).sum := rfl

lemma metrics_total_out (data : InputData) :
    (calculate_inventory_metrics data).total_out =
      (((clean_and_validate_data data).out_data).map (fun r => r.quantity_out)).sum := rfl

lemma metrics_total_value (data : InputData) :
    (calculate_inventory_metrics data).total_value =
      (((clean_and_validate_data data).raw_data).map
        (fun r => r.current_stock * r.cost_per_unit)).sum := by
  show (((clean_and_validate_data data).raw_data.map line_of).map
    (fun l => l.item_value)).sum = _
  rw [List.map_map]
  rfl

/-- Every cleaned catalog record has its numeric fields clamped to be
non-negative. -/
lemma clean_material_nonneg (r : RawRecord) (m : CleanedMaterial)
    (h : clean_material r = Option.some m) :
    0 ≤ m.current_stock ∧ 0 ≤ m.cost_per_unit ∧ 0 ≤ m.reorder_level := by
  unfold clean_material at h
  split_ifs at h
  simp only [Option.some.injEq] at h
  subst h
  refine ⟨?_, ?_, ?_⟩ <;> · dsimp only; split_ifs with h' <;> [exact le_refl 0; linarith]

/-- The fields of an appended alert item are copied from the line. -/
lemma alert_of_fields (l : LineCalc) (a : AlertItem) (h : alert_of l = Option.some a) :
    a.current_stock = l.current_stock ∧ a.reorder_level = l.reorder_level ∧
      a.status = l.status := by
  unfold alert_of at h
  split_ifs at h <;> · simp only [Option.some.injEq] at h; subst h; exact ⟨rfl, rfl, rfl⟩

/-- The critical tier is assigned exactly to out-of-stock or critically-low
lines. -/
lemma status_critical_iff (cs rl : ℚ) (rr : String) :
    (get_product_status cs rl rr).1 = "critical" ↔ cs = 0 ∨ cs ≤ rl * (1/2) := by
  unfold get_product_status
  split_ifs with h1 h2 h3 h4 <;> simp_all

/-- The warning tier is assigned exactly to non-critical lines at or below
the reorder level or carrying the manual flag. -/
lemma status_warning_iff (cs rl : ℚ) (rr : String) :
    (get_product_status cs rl rr).1 = "warning" ↔
      ¬(cs = 0 ∨ cs ≤ rl * (1/2)) ∧ (cs ≤ rl ∨ pyUpper (pyStrip rr) = "YES") := by
  unfold get_product_status
  split_ifs with h1 h2 h3 h4 <;> simp_all

/-- The remaining lines are in-stock (`"success"`). -/
lemma status_success_iff (cs rl : ℚ) (rr : String) :
    (get_product_status cs rl rr).1 = "success" ↔
      ¬(cs = 0 ∨ cs ≤ rl * (1/2)) ∧ ¬(cs ≤ rl ∨ pyUpper (pyStrip rr) = "YES") := by
  unfold get_product_status
  split_ifs with h1 h2 h3 h4 <;> simp_all

/-- C2: the alert tier is critical iff `currentStock == 0` or
`currentStock <= reorderLevel * 0.5`; otherwise warning iff
`currentStock <= reorderLevel` or the trimmed upper-cased manual flag is
`"YES"`; otherwise the in-stock tier (spelled `"success"` in the code, the
spec's `ok`); and the critical checks precede the warning checks, so a
zero-stock line with zero reorder level is critical, never warning. -/
theorem C2_alert_tiers (cs rl : ℚ) (rr : String) :
    ((get_product_status cs rl rr).1 = "critical" ↔ cs = 0 ∨ cs ≤ rl * (1/2)) ∧
    ((get_product_status cs rl rr).1 = "warning" ↔
      ¬(cs = 0 ∨ cs ≤ rl * (1/2)) ∧ (cs ≤ rl ∨ pyUpper (pyStrip rr) = "YES")) ∧
    ((get_product_status cs rl rr).1 = "success" ↔
      ¬(cs = 0 ∨ cs ≤ rl * (1/2)) ∧ ¬(cs ≤ rl ∨ pyUpper (pyStrip rr) = "YES")) ∧
    (get_product_status 0 0 rr).1 = "critical" ∧
    (get_product_status 0 0 rr).1 ≠ "warning" :=
  ⟨status_critical_iff cs rl rr, status_warning_iff cs rl rr,
   status_success_iff cs rl rr,
   (status_critical_iff 0 0 rr).mpr (Or.inl rfl),
   fun h => by simpa using (status_warning_iff 0 0 rr).mp h⟩

/-- On strings, `money_to_float` is: strip to `[0-9.\-]`, parse, default 0. -/
lemma money_str_eq (s : String) :
    money_to_float (Value.str s) =
      (pyFloat (String.mk (s.toList.filter moneyChar))).getD 0 := by
  show (if s = "" then (0 : ℚ)
    else
      if String.mk (s.toList.filter moneyChar) = "" then 0
      else (pyFloat (String.mk (s.toList.filter moneyChar))).getD 0) = _
  split_ifs with h1 h2
  · subst h1; rfl
  · rw [h2]; rfl
  · rfl

/-- Stripping is what the string branch sees: re-stripping changes
nothing. -/
lemma money_str_filter (s : String) :
    money_to_float (Value.str s) =
      money_to_float (Value.str (String.mk (s.toList.filter moneyChar))) := by
  rw [money_str_eq, money_str_eq]
  have : (String.mk (s.toList.filter moneyChar)).toList.filter moneyChar =
      s.toList.filter moneyChar := by
    show (s.toList.filter moneyChar).filter moneyChar = s.toList.filter moneyChar
    rw [List.filter_filter]
    simp
  rw [this]

/-- C7: `money_to_float` maps `None` and `""` to 0, passes numbers through,
strips every character outside `[0-9.\-]` before parsing (so `"₹1,650"`
gives 1650), yields 0 on unparsable input, and is idempotent when re-applied
to its own numeric output. -/
theorem C7_money_to_float_contract :
    money_to_float Value.none = 0 ∧
    money_to_float (Value.str "") = 0 ∧
    (∀ q : ℚ, money_to_float (Value.num q) = q) ∧
    (∀ s : String, money_to_float (Value.str s) =
      money_to_float (Value.str (String.mk (s.toList.filter moneyChar)))) ∧
    (∀ s : String, money_to_float (Value.str s) =
      (pyFloat (String.mk (s.toList.filter moneyChar))).getD 0) ∧
    money_to_float (Value.str "₹1,650") = 1650 ∧
    money_to_float (Value.str "abc") = 0 ∧
    money_to_float (Value.str "1.2.3") = 0 ∧
    (∀ v : Value, money_to_float (Value.num (money_to_float v)) = money_to_float v) :=
  ⟨rfl, rfl, fun _ => rfl, money_str_filter, money_str_eq,
   by with_unfolding_all rfl, by with_unfolding_all rfl, by with_unfolding_all rfl,
   fun v => by cases v <;> rfl⟩

/-- An inbound record survives cleaning exactly when its name and raw
quantity are truthy and its normalized quantity and cost are positive. -/
lemma clean_in_isSome_iff (r : RawRecord) :
    (clean_in r).isSome ↔
      truthy (r.get "Product Name") ∧ truthy (r.get "Quantity In") ∧
      0 < num_or_zero (r.getD "Quantity In" (Value.num 0)) ∧
      0 < money_to_float (r.getD "Cost Per Unit" (Value.num 0)) := by
  unfold clean_in
  split_ifs with h1
  · simp only [Option.isSome_none, Bool.false_eq_true, false_iff]
    rintro ⟨hA, hB, -, -⟩
    rcases h1 with h | h <;> exact h (by assumption)
  · dsimp only
    split_ifs with h2
    · simp only [Option.isSome_none, Bool.false_eq_true, false_iff]
      rintro ⟨-, -, hq, hc⟩
      rcases h2 with h | h <;> linarith
    · simp only [Option.isSome_some, true_iff]
      push_neg at h1 h2
      exact ⟨h1.1, h1.2, h2.1, h2.2⟩

/-- An outbound record survives cleaning exactly when its name and raw
quantity are truthy and its normalized quantity is positive; there is no
cost requirement. -/
lemma clean_out_isSome_iff (r : RawRecord) :
    (clean_out r).isSome ↔
      truthy (r.get "Product Name") ∧ truthy (r.get "Quantity Out") ∧
      0 < num_or_zero (r.getD "Quantity Out" (Value.num 0)) := by
  unfold clean_out
  split_ifs with h1
  · simp only [Option.isSome_none, Bool.false_eq_true, false_iff]
    rintro ⟨hA, hB, -⟩
    rcases h1 with h | h <;> exact h (by assumption)
  · dsimp only
    split_ifs with h2
    · simp only [Option.isSome_none, Bool.false_eq_true, false_iff]
      rintro ⟨-, -, hq⟩
      linarith
    · simp only [Option.isSome_some, true_iff]
      push_neg at h1
      exact ⟨h1.1, h1.2, not_le.mp h2⟩

/-- A catalog record survives cleaning exactly when its identifier and
name are truthy. -/
lemma clean_material_isSome_iff (r : RawRecord) :
    (clean_material r).isSome ↔
      truthy (r.get "RM ID") ∧ truthy (r.get "Product Name") := by
  unfold clean_material
  split_ifs with h1
  · simp only [Option.isSome_none, Bool.false_eq_true, false_iff]
    rintro ⟨hA, hB⟩
    rcases h1 with h | h <;> exact h (by assumption)
  · simp only [Option.isSome_some, true_iff]
    push_neg at h1
    exact h1

lemma getD_of_hasKey (r : RawRecord) (k : String) (d : Value)
    (h : r.hasKey k = true) : r.getD k d = r.get k := by
  unfold RawRecord.hasKey at h
  unfold RawRecord.getD RawRecord.get RawRecord.getD
  cases hf : r.find? (fun p => p.1 = k) with
  | none => rw [hf] at h; simp at h
  | some p => rfl

lemma getD_of_not_hasKey (r : RawRecord) (k : String) (d : Value)
    (h : r.hasKey k = false) : r.getD k d = d := by
  unfold RawRecord.hasKey at h
  unfold RawRecord.getD
  cases hf : r.find? (fun p => p.1 = k) with
  | none => rfl
  | some p => rw [hf] at h; simp at h

lemma clamp_eq_max (x : ℚ) : (if x < 0 then 0 else x) = max 0 x := by
  rcases lt_or_le x 0 with h | h
  · rw [if_pos h, max_eq_left h.le]
  · rw [if_neg (not_lt.mpr h), max_eq_right h]

/-- The cleaned unit cost is the clamped normalization of the primary cost
value when the primary key is bound, else of the secondary value. -/
lemma clean_material_cost (r : RawRecord) (m : CleanedMaterial)
    (h : clean_material r = Option.some m) :
    m.cost_per_unit =
      max 0 (money_to_float
        (r.getD "Cost per Unit" (r.getD "Avg. Cost per Unit" (Value.num 0)))) := by
  unfold clean_material at h
  split_ifs at h
  simp only [Option.some.injEq] at h
  subst h
  exact clamp_eq_max _

/-- An inbound record whose name is truthy but whose raw quantity field is
absent: dropped only because its cost normalizes to 0. -/
def C3rec : RawRecord :=
  [("Product Name", Value.str "Wheat"), ("Quantity In", Value.num 5)]

/-- C3 counterexample: the inbound record `C3rec` has a truthy (non-empty)
name and a strictly positive normalized quantity, yet the cleaner drops
it, because it carries no positive `Cost Per Unit`.  The claimed
"kept if and only if name non-empty and quantity positive" fails. -/
theorem C3_counterexample :
    clean_in C3rec = Option.none ∧
    truthy (C3rec.get "Product Name") = true ∧
    num_or_zero (C3rec.getD "Quantity In" (Value.num 0)) = 5 ∧
    (0 : ℚ) < 5 :=
  ⟨by with_unfolding_all rfl, by with_unfolding_all rfl,
   by with_unfolding_all rfl, by norm_num⟩

/-- C3 (amended): a transaction record is kept iff its name and raw
quantity fields are truthy and its normalized quantity is strictly
positive and — for inbound records only — its normalized `Cost Per Unit`
is strictly positive; so every record with zero, negative, or missing
quantity is dropped. -/
theorem C3_transaction_cleaning (r : RawRecord) :
    ((clean_in r).isSome ↔
      truthy (r.get "Product Name") ∧ truthy (r.get "Quantity In") ∧
      0 < num_or_zero (r.getD "Quantity In" (Value.num 0)) ∧
      0 < money_to_float (r.getD "Cost Per Unit" (Value.num 0))) ∧
    ((clean_out r).isSome ↔
      truthy (r.get "Product Name") ∧ truthy (r.get "Quantity Out") ∧
      0 < num_or_zero (r.getD "Quantity Out" (Value.num 0))) :=
  ⟨clean_in_isSome_iff r, clean_out_isSome_iff r⟩

/-- C4: an inbound record whose cost normalizes to a non-positive value is
dropped regardless of its other fields, while outbound cleaning imposes no
cost requirement at all. -/
theorem C4_inbound_cost_gate (r : RawRecord) :
    (money_to_float (r.getD "Cost Per Unit" (Value.num 0)) ≤ 0 →
      clean_in r = Option.none) ∧
    ((clean_out r).isSome ↔
      truthy (r.get "Product Name") ∧ truthy (r.get "Quantity Out") ∧
      0 < num_or_zero (r.getD "Quantity Out" (Value.num 0))) := by
  constructor
  · intro hc
    unfold clean_in
    split_ifs with h1
    · rfl
    · dsimp only
      split_ifs with h2
      · rfl
      · exact absurd (Or.inr hc) h2
  · exact clean_out_isSome_iff r

/-- C4 witness: `C3rec`-shaped inbound input with a positive quantity and
no cost field is dropped. -/
def C4rec : RawRecord :=
  [("Product Name", Value.str "Ghee"), ("Quantity In", Value.num 5)]

theorem C4_witness : clean_in C4rec = Option.none :=
  (C4_inbound_cost_gate C4rec).1
    (by rw [show money_to_float (C4rec.getD "Cost Per Unit" (Value.num 0)) = 0
          from by with_unfolding_all rfl])

/-- A catalog record whose primary cost field is present but normalizes to
zero, with a usable secondary cost. -/
def C5rec : RawRecord :=
  [("RM ID", Value.str "X"), ("Product Name", Value.str "P"),
   ("Cost per Unit", Value.str "N/A"), ("Avg. Cost per Unit", Value.num 50)]

/-- C5 counterexample: with a present-but-unparsable primary cost field and
a secondary cost of 50, the code keeps the primary (normalized to 0) and
never falls through to the secondary, so the cleaned unit cost is 0, not
the 50 the claim requires. -/
theorem C5_counterexample :
    (clean_material C5rec).map (fun m => m.cost_per_unit) = Option.some 0 ∧
    spec_unit_cost C5rec = 50 ∧
    (0 : ℚ) ≠ 50 :=
  ⟨by with_unfolding_all rfl, by with_unfolding_all rfl, by norm_num⟩

/-- C5 (amended): the fallback is on key presence, not on the normalized
value — the unit cost is the clamped normalization of the primary field
whenever the primary key is bound (even if it normalizes to zero), else of
the secondary field when that key is bound, else 0. -/
theorem C5_unit_cost_resolution (r : RawRecord) (m : CleanedMaterial)
    (h : clean_material r = Option.some m) :
    (r.hasKey "Cost per Unit" = true →
      m.cost_per_unit = max 0 (money_to_float (r.get "Cost per Unit"))) ∧
    (r.hasKey "Cost per Unit" = false → r.hasKey "Avg. Cost per Unit" = true →
      m.cost_per_unit = max 0 (money_to_float (r.get "Avg. Cost per Unit"))) ∧
    (r.hasKey "Cost per Unit" = false → r.hasKey "Avg. Cost per Unit" = false →
      m.cost_per_unit = 0) := by
  have hc := clean_material_cost r m h
  refine ⟨fun h1 => ?_, fun h1 h2 => ?_, fun h1 h2 => ?_⟩
  · rw [hc, getD_of_hasKey _ _ _ h1]
  · rw [hc, getD_of_not_hasKey _ _ _ h1, getD_of_hasKey _ _ _ h2]
  · rw [hc, getD_of_not_hasKey _ _ _ h1, getD_of_not_hasKey _ _ _ h2]
    simp

/-- The record `C5rec` cleans to this material. -/
def C5m : CleanedMaterial :=
  { rm_id := "X", product_name := "P", unit := "", current_stock := 0
    cost_per_unit := 0, avg_cost_per_unit := 0, reorder_level := 0
    reorder_required := "" }

theorem C5_witness :
    C5m.cost_per_unit = max 0 (money_to_float (C5rec.get "Cost per Unit")) :=
  (C5_unit_cost_resolution C5rec C5m (by with_unfolding_all rfl)).1
    (by with_unfolding_all rfl)

/-- C9: every record of the cleaned catalog has non-negative stock, unit
cost and reorder level — negative inputs are clamped to 0. -/
theorem C9_cleaned_nonneg (data : InputData) (m : CleanedMaterial)
    (h : m ∈ (clean_and_validate_data data).raw_data) :
    0 ≤ m.current_stock ∧ 0 ≤ m.cost_per_unit ∧ 0 ≤ m.reorder_level := by
  have h' : m ∈ data.raw_data.filterMap clean_material := h
  obtain ⟨r, hr, hm⟩ := List.mem_filterMap.mp h'
  exact clean_material_nonneg r m hm

/-- A catalog record with negative stock, cost and reorder level. -/
def C9rec : RawRecord :=
  [("RM ID", Value.str "NEG1"), ("Product Name", Value.str "Nega"),
   ("Current Stock", Value.num (-5)), ("Cost per Unit", Value.num (-3)),
   ("Reorder Level", Value.num (-2))]

def C9data : InputData := ⟨[C9rec], [], []⟩

/-- The record `C9rec` cleans to this material: all clamped to 0. -/
def C9m : CleanedMaterial :=
  { rm_id := "NEG1", product_name := "Nega", unit := "", current_stock := 0
    cost_per_unit := 0, avg_cost_per_unit := 0, reorder_level := 0
    reorder_required := "" }

theorem C9_witness :
    0 ≤ C9m.current_stock ∧ 0 ≤ C9m.cost_per_unit ∧ 0 ≤ C9m.reorder_level :=
  C9_cleaned_nonneg C9data C9m (by
    rw [show (clean_and_validate_data C9data).raw_data = [C9m] from by
      with_unfolding_all rfl]
    exact List.mem_singleton.mpr rfl)

/-- A one-item catalog holding its own `Current Stock` of 5, with one
inbound transaction of quantity 7 on the same key and no outbound. -/
def C1cat : RawRecord :=
  [("RM ID", Value.str "X"), ("Product Name", Value.str "P"),
   ("Current Stock", Value.num 5), ("Cost per Unit", Value.num 10),
   ("Reorder Level", Value.num 1)]

def C1in : RawRecord :=
  [("RM ID", Value.str "X"), ("Product Name", Value.str "P"),
   ("Quantity In", Value.num 7), ("Cost Per Unit", Value.num 2)]

def C1data : InputData := ⟨[C1cat], [C1in], []⟩

/-- C1 counterexample: the code takes the line stock from the catalog field
(5) and values the line at 50, while the claimed per-key reconciliation
(`totalIn - totalOut`) gives 7 and a valuation of 70 — the engine never
derives `currentStock` from the transactions. -/
theorem C1_counterexample :
    ((clean_and_validate_data C1data).raw_data.map
      (fun m => (line_of m).current_stock)) = [5] ∧
    ((clean_and_validate_data C1data).raw_data.map
      (fun m => spec_totalIn (clean_and_validate_data C1data) (spec_catalog_key m) -
        spec_totalOut (clean_and_validate_data C1data) (spec_catalog_key m))) = [7] ∧
    ((5 : ℚ) ≠ 7) ∧
    (calculate_inventory_metrics C1data).total_value = 50 ∧
    ((50 : ℚ) ≠ 7 * 10) :=
  ⟨by with_unfolding_all rfl, by with_unfolding_all rfl, by norm_num,
   by with_unfolding_all rfl, by norm_num⟩

/-- C1 (amended): the engine computes only global transaction totals — the
sums of all cleaned inbound and outbound quantities — and each line keeps
the catalog record's own `Current Stock`; its value is that stock times
the unit cost, with `total_value` the sum of those products. -/
theorem C1_aggregation (data : InputData) :
    (calculate_inventory_metrics data).total_in =
      (((clean_and_validate_data data).in_data).map (fun t => t.quantity_in)).sum ∧
    (calculate_inventory_metrics data).total_out =
      (((clean_and_validate_data data).out_data).map (fun t => t.quantity_out)).sum ∧
    (calculate_inventory_metrics data).total_value =
      (((clean_and_validate_data data).raw_data).map
        (fun r => r.current_stock * r.cost_per_unit)).sum ∧
    (∀ r : CleanedMaterial, (line_of r).current_stock = r.current_stock ∧
      (line_of r).item_value = r.current_stock * r.cost_per_unit) :=
  ⟨metrics_total_in data, metrics_total_out data, metrics_total_value data,
   fun _ => ⟨rfl, rfl⟩⟩

/-- Two catalog records sharing the key `X`. -/
def C8cat1 : RawRecord :=
  [("RM ID", Value.str "X"), ("Product Name", Value.str "P")]

def C8cat2 : RawRecord :=
  [("RM ID", Value.str "X"), ("Product Name", Value.str "Q")]

def C8data : InputData := ⟨[C8cat1, C8cat2], [], []⟩

/-- C8 counterexample: two catalog records with the same key survive
cleaning as two separate lines (`total_products = 2`), though there is
only one distinct key — duplicates are not collapsed last-write-wins. -/
theorem C8_counterexample :
    (calculate_inventory_metrics C8data).total_products = 2 ∧
    spec_distinct_keys (clean_and_validate_data C8data) = 1 ∧
    (2 : ℕ) ≠ 1 :=
  ⟨by with_unfolding_all rfl, by with_unfolding_all rfl, by decide⟩

/-- C8 (amended): the engine produces exactly one line per cleaned catalog
record (not per distinct key), and never more alerts than records. -/
theorem C8_one_line_per_record (data : InputData) :
    (calculate_inventory_metrics data).total_products =
      ((clean_and_validate_data data).raw_data).length ∧
    (((clean_and_validate_data data).raw_data).map line_of).length =
      ((clean_and_validate_data data).raw_data).length ∧
    (calculate_inventory_metrics data).alert_items.length ≤
      ((clean_and_validate_data data).raw_data).length := by
  refine ⟨rfl, List.length_map _ _, ?_⟩
  rw [metrics_alert_items]
  calc (((clean_and_validate_data data).raw_data.map line_of).filterMap alert_of).length
      ≤ ((clean_and_validate_data data).raw_data.map line_of).length :=
        List.length_filterMap_le _ _
    _ = ((clean_and_validate_data data).raw_data).length := List.length_map _ _

/-- C10: an empty catalog degrades to an empty, fully-zeroed result (no
lines, no alerts, zero aggregates) whatever the transactions are, and
empty transaction collections yield zero totals whatever the catalog is;
nothing fails. -/
theorem C10_empty_input_safety :
    (∀ ins outs : List RawRecord,
      (calculate_inventory_metrics ⟨[], ins, outs⟩).total_products = 0 ∧
      (calculate_inventory_metrics ⟨[], ins, outs⟩).total_value = 0 ∧
      (calculate_inventory_metrics ⟨[], ins, outs⟩).alert_items = [] ∧
      (calculate_inventory_metrics ⟨[], ins, outs⟩).critical_items = 0 ∧
      (calculate_inventory_metrics ⟨[], ins, outs⟩).low_stock_items = 0 ∧
      (calculate_inventory_metrics ⟨[], ins, outs⟩).out_of_stock_items = 0 ∧
      (calculate_inventory_metrics ⟨[], ins, outs⟩).high_value_items = 0 ∧
      (calculate_inventory_metrics ⟨[], ins, outs⟩).avg_cost_per_unit = 0 ∧
      (calculate_inventory_metrics ⟨[], ins, outs⟩).total_reorder_value = 0 ∧
      (calculate_inventory_metrics ⟨[], ins, outs⟩).stock_turnover_rate = 0) ∧
    (∀ cat : List RawRecord,
      (calculate_inventory_metrics ⟨cat, [], []⟩).total_in = 0 ∧
      (calculate_inventory_metrics ⟨cat, [], []⟩).total_out = 0) :=
  ⟨fun ins outs =>
    ⟨by with_unfolding_all rfl, by with_unfolding_all rfl, by with_unfolding_all rfl,
     by with_unfolding_all rfl, by with_unfolding_all rfl, by with_unfolding_all rfl,
     by with_unfolding_all rfl, by with_unfolding_all rfl, by with_unfolding_all rfl,
     by with_unfolding_all rfl⟩,
   fun cat => ⟨by with_unfolding_all rfl, by with_unfolding_all rfl⟩⟩

/-- A catalog record flagged for manual reorder while its stock exceeds its
reorder level. -/
def C6rec : RawRecord :=
  [("RM ID", Value.str "X"), ("Product Name", Value.str "P"),
   ("Current Stock", Value.num 10), ("Cost per Unit", Value.num 1),
   ("Reorder Level", Value.num 2), ("Re-Order Required", Value.str "YES")]

def C6data : InputData := ⟨[C6rec], [], []⟩

/-- C6 counterexample: the manual-flag warning line with stock 10 and
reorder level 2 gets a suggested reorder quantity of `2 - 10 = -8`, which
is negative — the code never applies the claimed `max(..., 0)` clamp
(which would give 0 here). -/
theorem C6_counterexample :
    ((calculate_inventory_metrics C6data).alert_items.map suggested_qty) = [-8] ∧
    ¬ (0 ≤ (-8 : ℚ)) ∧
    max ((2 : ℚ) - 10) 0 = 0 :=
  ⟨by with_unfolding_all rfl, by norm_num, by norm_num⟩

/-- C6 (amended): the suggested reorder quantity of an alerted line is the
unclamped difference `reorderLevel - currentStock`; it is non-negative for
every line with stock at or below its reorder level — in particular for
every critical line — but can be negative for a manual-flag warning line
whose stock exceeds its reorder level. -/
theorem C6_suggested_qty (data : InputData) (a : AlertItem)
    (h : a ∈ (calculate_inventory_metrics data).alert_items) :
    suggested_qty a = a.reorder_level - a.current_stock ∧
    (a.current_stock ≤ a.reorder_level → 0 ≤ suggested_qty a) ∧
    (a.status = "critical" → 0 ≤ suggested_qty a) := by
  refine ⟨rfl, fun hle => ?_, fun hcrit => ?_⟩
  · unfold suggested_qty
    linarith
  · rw [metrics_alert_items] at h
    obtain ⟨l, hl, ha⟩ := List.mem_filterMap.mp h
    obtain ⟨r, hr, rfl⟩ := List.mem_map.mp hl
    obtain ⟨r0, hr0, hclean⟩ := List.mem_filterMap.mp
      (show r ∈ data.raw_data.filterMap clean_material from hr)
    have hnn := clean_material_nonneg r0 r hclean
    obtain ⟨hacs, harl, hast⟩ := alert_of_fields _ a ha
    rw [hast, line_of_status] at hcrit
    have hcls := (status_critical_iff r.current_stock r.reorder_level
      r.reorder_required).mp hcrit
    unfold suggested_qty
    rw [hacs, harl, line_of_current_stock, line_of_reorder_level]
    rcases hcls with h0 | hhalf
    · rw [h0, sub_zero]
      exact hnn.2.2
    · linarith [hnn.2.2]

/-- The alert produced for `C6rec`. -/
def C6a : AlertItem :=
  { product := "P", rm_id := "X", current_stock := 10, reorder_level := 2
    unit_cost := 1, status := "warning", status_text := "🟠 Manual Order"
    status_desc := "Manual reorder flagged", priority := "Low"
    est_reorder_value := 2, stock_value := 10 }

theorem C6_witness :
    suggested_qty C6a = C6a.reorder_level - C6a.current_stock ∧
    (C6a.current_stock ≤ C6a.reorder_level → 0 ≤ suggested_qty C6a) ∧
    (C6a.status = "critical" → 0 ≤ suggested_qty C6a) :=
  C6_suggested_qty C6data C6a (by
    rw [show (calculate_inventory_metrics C6data).alert_items = [C6a] from by
      with_unfolding_all rfl]
    exact List.mem_singleton.mpr rfl)

theorem C1_witness :
    (calculate_inventory_metrics C1data).total_in =
      (((clean_and_validate_data C1data).in_data).map (fun t => t.quantity_in)).sum :=
  (C1_aggregation C1data).1

theorem C2_witness : (get_product_status 0 0 "").1 = "critical" :=
  (C2_alert_tiers 0 0 "").2.2.2.1

theorem C3_witness :
    (clean_out C3rec).isSome ↔
      truthy (C3rec.get "Product Name") ∧ truthy (C3rec.get "Quantity Out") ∧
      0 < num_or_zero (C3rec.getD "Quantity Out" (Value.num 0)) :=
  (C3_transaction_cleaning C3rec).2

theorem C7_witness : money_to_float (Value.num 42) = 42 :=
  C7_money_to_float_contract.2.2.1 42

theorem C8_witness :
    (calculate_inventory_metrics C8data).total_products =
      ((clean_and_validate_data C8data).raw_data).length :=
  (C8_one_line_per_record C8data).1

theorem C10_witness :
    (calculate_inventory_metrics ⟨([] : List RawRecord), [], []⟩).total_products = 0 :=
  (C10_empty_input_safety.1 [] []).1

end Invt
